import Mathlib

/-!
Shallow embedding of the precedence-decision core of the tracksAI
repository (src/core/models.py and src/core/optimizer.py).

Conventions of the embedding:
* Python ints are modelled as Lean Int, Python floats that the core
  computes with (confidences, scores) as Lean Rat.
* UUIDs are modelled as Nat identifiers; created_at timestamps are
  omitted. The Decision dataclass has no default for its id field, so
  the generated __init__ requires it; every Decision(...) call site in
  optimizer.py omits id, so that call raises TypeError. Python
  evaluates the keyword arguments before the call fails, so the
  evaluated argument record is a genuine runtime value and is kept as
  DecisionArgs, while the constructor call itself is the fallible
  callDecision returning Except.
* Python exceptions are modelled by Except PyErr. The try/except of
  optimize catches every error of the try body; an error raised inside
  the except handler propagates out of optimize.
* The CP-SAT model is modelled by its satisfying assignments: the
  boolean variable precedence_{i}_{j} becomes the value of a function
  b : Nat -> Nat -> Bool at (i, j), and each model.Add(...) call
  becomes a conjunct of a satisfaction predicate over b.
* The external solver is modelled by an explicit outcome value
  threaded into optimize: it either returns an assignment
  (OPTIMAL/FEASIBLE) or signals failure (infeasible/timeout).
* Wall-clock elapsed time is an input parameter.
-/

namespace TracksAI

/-- models.py TrainType enum. -/
inductive TrainType where
  | express
  | passenger
  | freight
  | special
deriving DecidableEq, BEq, Repr, Inhabited

/-- models.py TrainStatus enum. -/
inductive TrainStatus where
  | on_time
  | delayed
  | cancelled
  | running
  | stopped
deriving DecidableEq, BEq, Repr, Inhabited

/-- models.py SectionStatus enum. -/
inductive SectionStatus where
  | available
  | occupied
  | maintenance
  | blocked
deriving DecidableEq, BEq, Repr, Inhabited

/-- models.py Station dataclass (geographic float coordinates omitted;
they are never read by the core). -/
structure Station where
  id : Nat
  name : String
  code : String
  platforms : Int
  is_junction : Bool := false
deriving DecidableEq, Repr, Inhabited

/-- models.py Section dataclass (length_km float and the current_trains
back-reference list are omitted; the optimizer reads only id, tracks and
status). -/
structure Section where
  id : Nat
  from_station : Station
  to_station : Station
  max_speed_kmh : Int
  tracks : Int
  status : SectionStatus := SectionStatus.available
deriving DecidableEq, Repr, Inhabited

/-- models.py Train dataclass, as the raw record the caller passes to the
constructor (datetime fields modelled as Option Int minute stamps). -/
structure Train where
  id : Nat
  number : String
  name : String
  train_type : TrainType
  max_speed : Int
  length : Int
  current_section : Option Section := none
  current_station : Option Station := none
  status : TrainStatus := TrainStatus.on_time
  scheduled_departure : Option Int := none
  actual_departure : Option Int := none
  scheduled_arrival : Option Int := none
  actual_arrival : Option Int := none
  delay_minutes : Int := 0
  priority : Int := 1
deriving DecidableEq, Repr, Inhabited

/-- models.py Train.__post_init__ priority_map dictionary, with the
.get(self.train_type, 1) default for keys outside the map (the enum has
exactly the four listed members, so the default branch is unreachable for
well-typed input). -/
def priorityMap : TrainType → Int
  | TrainType.special => 4
  | TrainType.express => 3
  | TrainType.passenger => 2
  | TrainType.freight => 1

/-- models.py Train.__post_init__: the priority field is overwritten from
the train type, whatever the caller supplied. -/
def Train.postInit (t : Train) : Train :=
  { t with priority := priorityMap t.train_type }

/-- Constructing a Train in models.py runs __init__ then __post_init__. -/
def mkTrain (t : Train) : Train := Train.postInit t

/-- A Python exception value reachable in this core. -/
inductive PyErr where
  | typeError (msg : String)
deriving DecidableEq, Repr, Inhabited

/-- models.py Decision dataclass (target_station, estimated_time and the
applied flag are never set by the optimizer and are omitted). The first
field id has no default value in the source, so the dataclass __init__
requires it; the __post_init__ uuid backfill runs only after a
successful __init__. -/
structure Decision where
  id : Nat
  train : Train
  action : String
  target_section : Option Section := none
  reason : String := ""
  confidence : Rat := 0
deriving DecidableEq, Repr, Inhabited

/-- The keyword arguments a Decision(...) call site of optimizer.py
passes and evaluates: train, action, optional target_section, reason and
confidence — and no id. -/
structure DecisionArgs where
  train : Train
  action : String
  target_section : Option Section := none
  reason : String := ""
  confidence : Rat := 0
deriving DecidableEq, Repr, Inhabited

/-- The TypeError message of a Decision call missing id. -/
def decisionInitMsg : String :=
  "Decision.__init__ missing 1 required positional argument: id"

/-- The call Decision(train=..., action=..., ...) as written at every
call site of optimizer.py: the evaluated keyword arguments lack the
required id, so the dataclass __init__ raises TypeError and no Decision
value is constructed. -/
def callDecision (_args : DecisionArgs) : Except PyErr Decision :=
  Except.error (PyErr.typeError decisionInitMsg)

/-- models.py OptimizationResult dataclass. -/
structure OptimizationResult where
  decisions : List Decision
  total_delay_reduction : Int
  throughput_improvement : Rat
  confidence_score : Rat
  computation_time : Rat
deriving DecidableEq, Repr, Inhabited

/-- models.py SystemState dataclass (timestamp omitted; active_decisions
never read by the optimizer). -/
structure SystemState where
  trains : List Train
  sections : List Section
  stations : List Station
deriving DecidableEq, Repr, Inhabited

/-- optimizer.py RailwayOptimizer._get_trains_needing_decisions: trains in
status RUNNING or DELAYED whose current_section is not None. -/
def getTrainsNeedingDecisions (s : SystemState) : List Train :=
  s.trains.filter fun t =>
    (decide (t.status = TrainStatus.running) || decide (t.status = TrainStatus.delayed))
      && t.current_section.isSome

/-- optimizer.py RailwayOptimizer._trains_compete_for_resource: both
trains have a current section and the sections share one id. -/
def trainsCompeteForResource (t1 t2 : Train) : Bool :=
  match t1.current_section, t2.current_section with
  | some s1, some s2 => decide (s1.id = s2.id)
  | _, _ => false

/-- The constraints added by _add_precedence_constraints hold of an
assignment b: for every ordered pair of distinct indices whose trains
compete for a resource, precedence_vars[(i,j)] + precedence_vars[(j,i)]
equals 1. -/
def precedenceSat (trains : List Train) (b : Nat → Nat → Bool) : Bool :=
  (List.range trains.length).all fun i =>
    (List.range trains.length).all fun j =>
      if i ≠ j ∧ trainsCompeteForResource trains[i]! trains[j]! then
        (cond (b i j) 1 0) + (cond (b j i) 1 0) == 1
      else
        true

/-- The constraints added by _add_priority_constraints hold of an
assignment b: for every ordered pair of distinct indices where train i
has strictly higher priority and the delay difference is below 30,
precedence_vars[(i,j)] equals 1. The competition check is not consulted
here: the source loops over all distinct pairs. -/
def prioritySat (trains : List Train) (b : Nat → Nat → Bool) : Bool :=
  (List.range trains.length).all fun i =>
    (List.range trains.length).all fun j =>
      if i ≠ j ∧ trains[i]!.priority > trains[j]!.priority
          ∧ trains[j]!.delay_minutes - trains[i]!.delay_minutes < 30 then
        b i j
      else
        true

/-- _add_capacity_constraints groups trains by section and compares group
sizes to track counts but its body is a pass statement: it adds no
constraint to the model. -/
def capacitySat (_trains : List Train) (_b : Nat → Nat → Bool) : Bool :=
  true

/-- The delay terms of the objective in _solve_precedence_problem:
weight = priority * 10, term = weight * delay_minutes. These are Python
ints, not solver expressions. -/
def delayTerms (trains : List Train) : List Int :=
  trains.map fun t => t.priority * 10 * t.delay_minutes

/-- The value the total_delay variable is constrained to equal:
sum(delay_terms). -/
def objectiveValue (trains : List Train) : Int :=
  (delayTerms trains).sum

/-- An assignment b satisfies the CP model of _solve_precedence_problem:
all added constraints hold and the total_delay variable, which
model.Add(total_delay == sum(delay_terms)) pins to objectiveValue, fits
its NewIntVar(0, 10000) domain. -/
def modelSat (trains : List Train) (b : Nat → Nat → Bool) : Bool :=
  precedenceSat trains b && prioritySat trains b && capacitySat trains b
    && decide (0 ≤ objectiveValue trains) && decide (objectiveValue trains ≤ 10000)

/-- A full assignment of the model also gives the total_delay integer
variable a value td; feasibility constrains td to its domain and to the
sum of the delay terms. -/
def fullModelSat (trains : List Train) (b : Nat → Nat → Bool) (td : Int) : Bool :=
  modelSat trains b && decide (0 ≤ td) && decide (td ≤ 10000)
    && decide (td = objectiveValue trains)

/-- _extract_decisions_from_solution position computation for index i:
the number of indices j with i != j and solver value of
precedence_vars[(j, i)] equal to 1. -/
def positionOf (trains : List Train) (b : Nat → Nat → Bool) (i : Nat) : Nat :=
  (List.range trains.length).countP fun j => decide (i ≠ j) && b j i

/-- _extract_decisions_from_solution precedence_order list: the pairs
(position, index) in index order, then sorted by position. Python sort is
stable; insertionSort is a stable sort, hence the same function. -/
def precedenceOrder (trains : List Train) (b : Nat → Nat → Bool) : List (Nat × Nat) :=
  List.insertionSort (fun x y : Nat × Nat => x.1 ≤ y.1)
    ((List.range trains.length).map fun i => (positionOf trains b i, i))

/-- The keyword arguments _extract_decisions_from_solution evaluates for
one entry (position, index) of precedence_order: a proceed record at
position 0 targeting the current section, a wait record otherwise. -/
def solvedDecisionArgs (trains : List Train) (pi : Nat × Nat) : DecisionArgs :=
  if pi.1 = 0 then
    { train := trains[pi.2]!
      action := "proceed"
      target_section := trains[pi.2]!.current_section
      reason := "Highest priority in precedence order"
      confidence := 9/10 }
  else
    { train := trains[pi.2]!
      action := "wait"
      reason := "Waiting for " ++ toString pi.1 ++ " higher priority trains"
      confidence := 8/10 }

/-- The Decision(...) call _extract_decisions_from_solution makes for one
entry of precedence_order: it evaluates the arguments and then raises,
since id is missing. -/
def solvedDecisionFor (trains : List Train) (pi : Nat × Nat) : Except PyErr Decision :=
  callDecision (solvedDecisionArgs trains pi)

/-- optimizer.py RailwayOptimizer._extract_decisions_from_solution: the
positions and the sorted precedence_order are computed first, then the
generation loop appends one constructed Decision per entry; the first
raised exception aborts the loop and propagates. -/
def extractDecisionsFromSolution (trains : List Train) (b : Nat → Nat → Bool) :
    Except PyErr (List Decision) :=
  (precedenceOrder trains b).mapM (solvedDecisionFor trains)

/-- The comparator realised by Python sorted(trains,
key=lambda t: (t.priority, -t.delay_minutes), reverse=True): t may come
before u when the key of t is lexicographically at least the key of u,
that is priority strictly greater, or priorities equal and delay at most
the delay of u (negation reverses the delay comparison). -/
def heurRel (t u : Train) : Prop :=
  u.priority < t.priority
    ∨ (t.priority = u.priority ∧ t.delay_minutes ≤ u.delay_minutes)

instance : DecidableRel heurRel := fun t u => by
  unfold heurRel
  exact inferInstance

/-- The sorted train list of _generate_heuristic_decisions. Python sorted
with reverse=True is a stable descending sort; insertionSort with heurRel
is a stable sort for the same total preorder, hence the same function. -/
def heurSort (trains : List Train) : List Train :=
  List.insertionSort heurRel trains

/-- The keyword arguments _generate_heuristic_decisions evaluates for the
train at index i of the sorted list. -/
def heurDecisionArgs (it : Nat × Train) : DecisionArgs :=
  if it.1 = 0 then
    { train := it.2
      action := "proceed"
      target_section := it.2.current_section
      reason := "Highest priority by heuristic"
      confidence := 6/10 }
  else
    { train := it.2
      action := "wait"
      reason := "Lower priority than " ++ toString it.1 ++ " trains"
      confidence := 5/10 }

/-- The Decision(...) call _generate_heuristic_decisions makes for one
enumerated sorted train: argument evaluation, then the missing-id
TypeError. -/
def heurDecisionFor (it : Nat × Train) : Except PyErr Decision :=
  callDecision (heurDecisionArgs it)

/-- optimizer.py RailwayOptimizer._generate_heuristic_decisions: sort,
then append one constructed Decision per enumerated train; the first
raised exception aborts the loop and propagates. -/
def generateHeuristicDecisions (trains : List Train) : Except PyErr (List Decision) :=
  (heurSort trains).enum.mapM heurDecisionFor

/-- Outcome of the external CP-SAT solve call: an OPTIMAL or FEASIBLE
status with the returned variable assignment, or any other status. -/
inductive SolveOutcome where
  | solution (b : Nat → Nat → Bool)
  | failure

/-- optimizer.py RailwayOptimizer._solve_precedence_problem, as a function
of the solver outcome: extract decisions from a returned assignment, or
fall back to the heuristic ordering; either branch propagates the
TypeError its Decision constructions raise. -/
def solvePrecedenceProblem (outcome : SolveOutcome) (trains : List Train) :
    Except PyErr (List Decision) :=
  match outcome with
  | SolveOutcome.solution b => extractDecisionsFromSolution trains b
  | SolveOutcome.failure => generateHeuristicDecisions trains

/-- optimizer.py RailwayOptimizer._calculate_delay_reduction. -/
def calculateDelayReduction (decisions : List Decision) : Int :=
  decisions.foldl
    (fun acc d =>
      if d.action = "proceed" ∧ d.train.delay_minutes > 0 then
        acc + min d.train.delay_minutes 10
      else
        acc)
    0

/-- optimizer.py RailwayOptimizer._calculate_throughput_improvement. -/
def calculateThroughputImprovement (decisions : List Decision) : Rat :=
  let proceedCount : Nat := decisions.countP fun d => decide (d.action = "proceed")
  if decisions.length = 0 then
    0
  else
    ((proceedCount : Rat) / (decisions.length : Rat)) * 20

/-- optimizer.py RailwayOptimizer._calculate_confidence. -/
def calculateConfidence (decisions : List Decision) (s : SystemState) : Rat :=
  if decisions = [] then
    1
  else
    let avg := (decisions.map Decision.confidence).sum / (decisions.length : Rat)
    avg * min 1 ((s.trains.length : Rat) / 20)

/-- The keyword arguments _generate_fallback_decisions evaluates for one
running or delayed train. -/
def fallbackDecisionArgs (t : Train) : DecisionArgs :=
  { train := t
    action := "proceed"
    target_section := t.current_section
    reason := "Fallback: proceed with caution"
    confidence := 3/10 }

/-- optimizer.py RailwayOptimizer._generate_fallback_decisions: one
Decision(...) call per running or delayed train; the first raised
TypeError aborts the loop and propagates, so a result is returned only
when no train passes the status filter. -/
def generateFallbackDecisions (s : SystemState) : Except PyErr OptimizationResult :=
  match (s.trains.filter fun t =>
      decide (t.status = TrainStatus.running)
        || decide (t.status = TrainStatus.delayed)).mapM
      (fun t => callDecision (fallbackDecisionArgs t)) with
  | Except.error e => Except.error e
  | Except.ok decisions =>
    Except.ok
      { decisions := decisions
        total_delay_reduction := 0
        throughput_improvement := 0
        confidence_score := 3/10
        computation_time := 0 }

/-- optimizer.py RailwayOptimizer.optimize, as a function of the solver
outcome and the wall-clock seconds the try-block consumed. The
empty-eligible branch returns the trivial result before the model is
built; any exception of the try body is caught and answered by
_generate_fallback_decisions, whose own exceptions propagate out of
optimize. -/
def optimize (outcome : SolveOutcome) (elapsed : Rat) (s : SystemState) :
    Except PyErr OptimizationResult :=
  let trains := getTrainsNeedingDecisions s
  if trains = [] then
    Except.ok
      { decisions := []
        total_delay_reduction := 0
        throughput_improvement := 0
        confidence_score := 1
        computation_time := 0 }
  else
    match solvePrecedenceProblem outcome trains with
    | Except.ok decisions =>
      Except.ok
        { decisions := decisions
          total_delay_reduction := calculateDelayReduction decisions
          throughput_improvement := calculateThroughputImprovement decisions
          confidence_score := calculateConfidence decisions s
          computation_time := elapsed }
    | Except.error _ => generateFallbackDecisions s

/-! Concrete fixtures mirroring the repository test scenarios: two
stations, two single-track sections, and a few trains placed on them. -/

/-- A concrete station. -/
def stationA : Station :=
  { id := 0, name := "Station 1", code := "ST1", platforms := 4 }

/-- A second concrete station. -/
def stationB : Station :=
  { id := 1, name := "Station 2", code := "ST2", platforms := 4 }

/-- A single-track section from stationA to stationB. -/
def sectionA : Section :=
  { id := 0, from_station := stationA, to_station := stationB
    max_speed_kmh := 80, tracks := 1 }

/-- A second, distinct single-track section. -/
def sectionB : Section :=
  { id := 1, from_station := stationB, to_station := stationA
    max_speed_kmh := 80, tracks := 1 }

/-- A running passenger train on sectionA delayed 5 minutes. -/
def trainP5 : Train :=
  mkTrain
    { id := 10, number := "P5", name := "Passenger 5", train_type := TrainType.passenger
      max_speed := 80, length := 300, current_section := some sectionA
      status := TrainStatus.running, delay_minutes := 5 }

/-- A running passenger train on sectionA delayed 10 minutes. -/
def trainP10 : Train :=
  mkTrain
    { id := 11, number := "P10", name := "Passenger 10", train_type := TrainType.passenger
      max_speed := 80, length := 300, current_section := some sectionA
      status := TrainStatus.running, delay_minutes := 10 }

/-- A running express train on sectionA with no delay. -/
def trainExpA : Train :=
  mkTrain
    { id := 12, number := "E1", name := "Express 1", train_type := TrainType.express
      max_speed := 100, length := 400, current_section := some sectionA
      status := TrainStatus.running, delay_minutes := 0 }

/-- A running freight train on sectionB with no delay: it does not compete
with trainExpA for a resource. -/
def trainFrB : Train :=
  mkTrain
    { id := 13, number := "F1", name := "Freight 1", train_type := TrainType.freight
      max_speed := 60, length := 600, current_section := some sectionB
      status := TrainStatus.running, delay_minutes := 0 }

/-- A running freight train on sectionB delayed 45 minutes: more than 30
minutes worse off than trainExpA. -/
def trainFrB45 : Train :=
  mkTrain
    { id := 14, number := "F2", name := "Freight 2", train_type := TrainType.freight
      max_speed := 60, length := 600, current_section := some sectionB
      status := TrainStatus.running, delay_minutes := 45 }

/-- Three undistinguished running passenger trains on the same section. -/
def trainCyc0 : Train :=
  mkTrain
    { id := 20, number := "Q0", name := "Cycle 0", train_type := TrainType.passenger
      max_speed := 80, length := 300, current_section := some sectionA
      status := TrainStatus.running, delay_minutes := 0 }

/-- Second train of the three-cycle fixture. -/
def trainCyc1 : Train := { trainCyc0 with id := 21, number := "Q1" }

/-- Third train of the three-cycle fixture. -/
def trainCyc2 : Train := { trainCyc0 with id := 22, number := "Q2" }

/-- A cancelled train: not eligible for a decision. -/
def trainCan : Train := { trainP5 with status := TrainStatus.cancelled }

/-- State holding the two competing passenger trains. -/
def stateTwo : SystemState :=
  { trains := [trainP5, trainP10], sections := [sectionA], stations := [stationA, stationB] }

/-- State with a single cancelled train: no eligible trains. -/
def stateNone : SystemState :=
  { trains := [trainCan], sections := [sectionA], stations := [stationA, stationB] }

/-- The assignment ordering index 0 strictly before index 1. -/
def assignTwo : Nat → Nat → Bool := fun i j => decide (i = 0) && decide (j = 1)

/-- The cyclic assignment 0 before 1 before 2 before 0. -/
def assignCycle : Nat → Nat → Bool := fun i j =>
  (decide (i = 0) && decide (j = 1)) || (decide (i = 1) && decide (j = 2))
    || (decide (i = 2) && decide (j = 0))

/-- The everywhere-false assignment. -/
def assignNone : Nat → Nat → Bool := fun _ _ => false

/-- The assignment that differs from b exactly at the pair (i, j), where it
takes the value v. -/
def updPair (b : Nat → Nat → Bool) (i j : Nat) (v : Bool) : Nat → Nat → Bool :=
  fun x y => if x = i ∧ y = j then v else b x y

/-! Helper lemmas about the constraint predicates. -/

/-- Unpack modelSat into its conjuncts. -/
lemma modelSat_parts {trains : List Train} {b : Nat → Nat → Bool}
    (h : modelSat trains b = true) :
    precedenceSat trains b = true ∧ prioritySat trains b = true
      ∧ 0 ≤ objectiveValue trains ∧ objectiveValue trains ≤ 10000 := by
  simp only [modelSat, Bool.and_eq_true, decide_eq_true_eq] at h
  exact ⟨h.1.1.1.1, h.1.1.1.2, h.1.2, h.2⟩

/-- The priority constraint of a pair meeting the dominance condition pins
the corresponding precedence variable to 1. -/
lemma prioritySat_force {trains : List Train} {b : Nat → Nat → Bool} {i j : Nat}
    (h : prioritySat trains b = true) (hi : i < trains.length) (hj : j < trains.length)
    (hij : i ≠ j) (hp : trains[i]!.priority > trains[j]!.priority)
    (hd : trains[j]!.delay_minutes - trains[i]!.delay_minutes < 30) :
    b i j = true := by
  simp only [prioritySat, List.all_eq_true, List.mem_range] at h
  have h2 := h i hi j hj
  rwa [if_pos ⟨hij, hp, hd⟩] at h2

/-- The exclusivity constraint of a competing pair makes its two precedence
variables complementary. -/
lemma precedenceSat_force {trains : List Train} {b : Nat → Nat → Bool} {i j : Nat}
    (h : precedenceSat trains b = true) (hi : i < trains.length) (hj : j < trains.length)
    (hij : i ≠ j) (hc : trainsCompeteForResource trains[i]! trains[j]! = true) :
    b i j = !(b j i) := by
  simp only [precedenceSat, List.all_eq_true, List.mem_range] at h
  have h2 := h i hi j hj
  rw [if_pos ⟨hij, hc⟩] at h2
  cases hb1 : b i j <;> cases hb2 : b j i <;> simp_all

/-- Resource competition is symmetric. -/
lemma compete_symm (t1 t2 : Train) :
    trainsCompeteForResource t1 t2 = trainsCompeteForResource t2 t1 := by
  unfold trainsCompeteForResource
  cases t1.current_section <;> cases t2.current_section <;> simp [eq_comm]

/-- Changing an assignment at a pair the priority constraints do not
mention preserves their satisfaction. -/
lemma prioritySat_updPair {trains : List Train} {b : Nat → Nat → Bool} {i j : Nat}
    {v : Bool} (h : prioritySat trains b = true)
    (hex : ¬(i < trains.length ∧ j < trains.length ∧ i ≠ j
        ∧ trains[i]!.priority > trains[j]!.priority
        ∧ trains[j]!.delay_minutes - trains[i]!.delay_minutes < 30)) :
    prioritySat trains (updPair b i j v) = true := by
  simp only [prioritySat, List.all_eq_true, List.mem_range] at h ⊢
  intro x hx y hy
  by_cases hC : x ≠ y ∧ trains[x]!.priority > trains[y]!.priority
      ∧ trains[y]!.delay_minutes - trains[x]!.delay_minutes < 30
  · rw [if_pos hC]
    by_cases hxy : x = i ∧ y = j
    · obtain ⟨rfl, rfl⟩ := hxy
      exact absurd ⟨hx, hy, hC.1, hC.2.1, hC.2.2⟩ hex
    · have e1 : updPair b i j v x y = b x y := by
        simp only [updPair]
        rw [if_neg hxy]
      rw [e1]
      have h2 := h x hx y hy
      rwa [if_pos hC] at h2
  · rw [if_neg hC]

/-- Changing an assignment at a pair whose trains do not compete preserves
the exclusivity constraints. -/
lemma precedenceSat_updPair {trains : List Train} {b : Nat → Nat → Bool} {i j : Nat}
    {v : Bool} (h : precedenceSat trains b = true)
    (hnc : ¬(i < trains.length ∧ j < trains.length ∧ i ≠ j
        ∧ trainsCompeteForResource trains[i]! trains[j]! = true)) :
    precedenceSat trains (updPair b i j v) = true := by
  simp only [precedenceSat, List.all_eq_true, List.mem_range] at h ⊢
  intro x hx y hy
  by_cases hC : x ≠ y ∧ trainsCompeteForResource trains[x]! trains[y]! = true
  · rw [if_pos hC]
    have hxy : ¬(x = i ∧ y = j) := by
      rintro ⟨rfl, rfl⟩
      exact hnc ⟨hx, hy, hC.1, hC.2⟩
    have hyx : ¬(y = i ∧ x = j) := by
      rintro ⟨rfl, rfl⟩
      refine hnc ⟨hy, hx, Ne.symm hC.1, ?_⟩
      rw [compete_symm]
      exact hC.2
    have e1 : updPair b i j v x y = b x y := by
      simp only [updPair]
      rw [if_neg hxy]
    have e2 : updPair b i j v y x = b y x := by
      simp only [updPair]
      rw [if_neg hyx]
    rw [e1, e2]
    have h2 := h x hx y hy
    rwa [if_pos hC] at h2
  · rw [if_neg hC]

/-- Changing an assignment at a pair no constraint mentions preserves the
whole model. -/
lemma modelSat_updPair {trains : List Train} {b : Nat → Nat → Bool} {i j : Nat}
    {v : Bool} (h : modelSat trains b = true)
    (hnc : ¬(i < trains.length ∧ j < trains.length ∧ i ≠ j
        ∧ trainsCompeteForResource trains[i]! trains[j]! = true))
    (hex : ¬(i < trains.length ∧ j < trains.length ∧ i ≠ j
        ∧ trains[i]!.priority > trains[j]!.priority
        ∧ trains[j]!.delay_minutes - trains[i]!.delay_minutes < 30)) :
    modelSat trains (updPair b i j v) = true := by
  obtain ⟨h1, h2, h3, h4⟩ := modelSat_parts h
  simp only [modelSat, Bool.and_eq_true, decide_eq_true_eq]
  exact ⟨⟨⟨⟨precedenceSat_updPair h1 hnc, prioritySat_updPair h2 hex⟩, rfl⟩, h3⟩, h4⟩

/-- A mapM over the Except monad propagates the error of the head. -/
lemma mapM_head_error {α β : Type} (f : α → Except PyErr β) (x : α) (xs : List α)
    (e : PyErr) (hf : f x = Except.error e) :
    (x :: xs).mapM f = Except.error e := by
  rw [List.mapM_cons, hf]
  rfl

/-- Extraction raises the missing-id TypeError whenever the eligible list
is non-empty: the precedence order is then non-empty and already its
first Decision(...) call fails. -/
lemma extract_error {trains : List Train} {b : Nat → Nat → Bool}
    (h : trains ≠ []) :
    extractDecisionsFromSolution trains b
      = Except.error (PyErr.typeError decisionInitMsg) := by
  unfold extractDecisionsFromSolution
  cases ho : precedenceOrder trains b with
  | nil =>
    exfalso
    have hlen : (precedenceOrder trains b).length = trains.length := by
      simp [precedenceOrder, List.length_insertionSort]
    rw [ho] at hlen
    exact h (List.length_eq_zero.mp hlen.symm)
  | cons p ps =>
    exact mapM_head_error _ p ps _ rfl

/-- The heuristic generator raises the missing-id TypeError whenever the
eligible list is non-empty. -/
lemma heuristic_error {trains : List Train} (h : trains ≠ []) :
    generateHeuristicDecisions trains
      = Except.error (PyErr.typeError decisionInitMsg) := by
  unfold generateHeuristicDecisions
  cases ho : (heurSort trains).enum with
  | nil =>
    exfalso
    have hlen : (heurSort trains).enum.length = trains.length := by
      simp [heurSort, List.enum_length, List.length_insertionSort]
    rw [ho] at hlen
    exact h (List.length_eq_zero.mp hlen.symm)
  | cons p ps =>
    exact mapM_head_error _ p ps _ rfl

/-- Either branch of the solver step raises for a non-empty eligible
list. -/
lemma solve_error {outcome : SolveOutcome} {trains : List Train} (h : trains ≠ []) :
    solvePrecedenceProblem outcome trains
      = Except.error (PyErr.typeError decisionInitMsg) := by
  cases outcome with
  | solution b => exact extract_error h
  | failure => exact heuristic_error h

/-- The fallback generator raises whenever some train of the state is
running or delayed: its first Decision(...) call fails. -/
lemma fallback_error {s : SystemState} {t : Train} (ht : t ∈ s.trains)
    (hst : t.status = TrainStatus.running ∨ t.status = TrainStatus.delayed) :
    generateFallbackDecisions s
      = Except.error (PyErr.typeError decisionInitMsg) := by
  unfold generateFallbackDecisions
  have hmem : t ∈ s.trains.filter fun t =>
      decide (t.status = TrainStatus.running)
        || decide (t.status = TrainStatus.delayed) := by
    rw [List.mem_filter]
    refine ⟨ht, ?_⟩
    rcases hst with h1 | h1 <;> simp [h1]
  cases ho : s.trains.filter (fun t =>
      decide (t.status = TrainStatus.running)
        || decide (t.status = TrainStatus.delayed)) with
  | nil =>
    rw [ho] at hmem
    cases hmem
  | cons p ps =>
    rw [mapM_head_error _ p ps _ rfl]

/-- A non-empty eligible list exhibits a running or delayed train of the
state. -/
lemma eligible_mem {s : SystemState} (h : getTrainsNeedingDecisions s ≠ []) :
    ∃ t ∈ s.trains,
      t.status = TrainStatus.running ∨ t.status = TrainStatus.delayed := by
  obtain ⟨t, ht⟩ := List.exists_mem_of_ne_nil _ h
  rw [getTrainsNeedingDecisions, List.mem_filter] at ht
  obtain ⟨hmem, hcond⟩ := ht
  simp only [Bool.and_eq_true, Bool.or_eq_true, decide_eq_true_eq] at hcond
  exact ⟨t, hmem, hcond.1⟩


/-- C6: a constructed Train has priority 4 if its type is Special, 3 if
Express, 2 if Passenger, 1 if Freight and 1 in any remaining case,
whatever every other field of the record says, including any
caller-supplied priority value. -/
theorem C6_priority_from_type (t : Train) :
    (mkTrain t).priority =
      if t.train_type = TrainType.special then 4
      else if t.train_type = TrainType.express then 3
      else if t.train_type = TrainType.passenger then 2
      else 1 := by
  cases h : t.train_type <;>
    simp [mkTrain, Train.postInit, priorityMap, h]


/-- C1 fails on the code: the Decision(...) calls of
_generate_fallback_decisions omit the required id field, so whenever at
least one eligible train exists the try body raises the missing-id
TypeError, the except handler raises the same TypeError at its first
running or delayed train, and optimize propagates it instead of
returning the fallback OptimizationResult. -/
theorem C1_fallback_raises (s : SystemState) (outcome : SolveOutcome) (elapsed : Rat)
    (h : getTrainsNeedingDecisions s ≠ []) :
    optimize outcome elapsed s = Except.error (PyErr.typeError decisionInitMsg) := by
  obtain ⟨t, ht, hst⟩ := eligible_mem h
  simp only [optimize]
  rw [if_neg h, solve_error h]
  exact fallback_error ht hst

/-- C1 witness: with the two running trains, optimize throws. -/
theorem C1_fallback_raises_witness :
    optimize (SolveOutcome.solution assignTwo) 0 stateTwo
      = Except.error (PyErr.typeError decisionInitMsg) :=
  C1_fallback_raises stateTwo (SolveOutcome.solution assignTwo) 0 (by decide)

/-- C7: when no train is in status running or delayed with a section
assigned, optimize returns the empty decision list with confidence 1,
zero delay reduction, zero throughput improvement and zero computation
time, and does so identically for every solver outcome. This path builds
no Decision, so it is unaffected by the missing-id defect. -/
theorem C7_no_eligible_trains (s : SystemState) (outcome : SolveOutcome) (elapsed : Rat)
    (h : ∀ t ∈ s.trains,
        (t.status = TrainStatus.running ∨ t.status = TrainStatus.delayed) →
          t.current_section = none) :
    optimize outcome elapsed s =
      Except.ok
        { decisions := []
          total_delay_reduction := 0
          throughput_improvement := 0
          confidence_score := 1
          computation_time := 0 } := by
  have he : getTrainsNeedingDecisions s = [] := by
    rw [getTrainsNeedingDecisions, List.filter_eq_nil_iff]
    intro t ht hcontra
    simp only [Bool.and_eq_true, Bool.or_eq_true, decide_eq_true_eq,
      Option.isSome_iff_exists] at hcontra
    obtain ⟨hst, x, hx⟩ := hcontra
    rw [h t ht hst] at hx
    cases hx
  simp [optimize, he]

/-- C7 witness: a state whose only train is cancelled takes the trivial
branch. -/
theorem C7_no_eligible_trains_witness :
    optimize SolveOutcome.failure 7 stateNone =
      Except.ok
        { decisions := []
          total_delay_reduction := 0
          throughput_improvement := 0
          confidence_score := 1
          computation_time := 0 } :=
  C7_no_eligible_trains stateNone SolveOutcome.failure 7 (by decide)

/-- C10: in every feasible full assignment of the precedence model the
total_delay variable equals the sum of (priority * 10) * delay_minutes
over the input trains, a quantity built from the train data alone; hence
any two feasible assignments attain the same objective value and the
minimization cannot distinguish feasible precedence orders. -/
theorem C10_objective_constant (trains : List Train) (b1 b2 : Nat → Nat → Bool)
    (td1 td2 : Int) (h1 : fullModelSat trains b1 td1 = true)
    (h2 : fullModelSat trains b2 td2 = true) :
    objectiveValue trains = (trains.map fun t => t.priority * 10 * t.delay_minutes).sum
      ∧ td1 = objectiveValue trains
      ∧ td2 = objectiveValue trains
      ∧ td1 = td2 := by
  simp only [fullModelSat, Bool.and_eq_true, decide_eq_true_eq] at h1 h2
  exact ⟨rfl, h1.2, h2.2, h1.2.trans h2.2.symm⟩

/-- C10 witness: two concrete feasible assignments of the two-train model
share the objective value. -/
theorem C10_objective_constant_witness :
    objectiveValue [trainExpA, trainFrB]
        = ([trainExpA, trainFrB].map fun t => t.priority * 10 * t.delay_minutes).sum
      ∧ (0 : Int) = objectiveValue [trainExpA, trainFrB]
      ∧ (0 : Int) = objectiveValue [trainExpA, trainFrB]
      ∧ (0 : Int) = 0 :=
  C10_objective_constant [trainExpA, trainFrB] assignTwo assignTwo 0 0
    (by decide) (by decide)

/-- C5: the priority constraints pin before(i,j) to 1 exactly for the
ordered pairs where train i has strictly higher priority and the delay
difference of train j over train i is below 30; when that difference is
30 or more they leave both before(i,j) and before(j,i) free. -/
theorem C5_priority_override :
    (∀ (trains : List Train) (b : Nat → Nat → Bool) (i j : Nat),
        i < trains.length → j < trains.length → i ≠ j →
        trains[i]!.priority > trains[j]!.priority →
        trains[j]!.delay_minutes - trains[i]!.delay_minutes < 30 →
        prioritySat trains b = true → b i j = true)
      ∧ (∀ (trains : List Train) (b : Nat → Nat → Bool) (i j : Nat) (v : Bool),
          i < trains.length → j < trains.length → i ≠ j →
          trains[i]!.priority > trains[j]!.priority →
          30 ≤ trains[j]!.delay_minutes - trains[i]!.delay_minutes →
          prioritySat trains b = true →
          prioritySat trains (updPair b i j v) = true
            ∧ prioritySat trains (updPair b j i v) = true) := by
  constructor
  · intro trains b i j hi hj hij hp hd h
    exact prioritySat_force h hi hj hij hp hd
  · intro trains b i j v hi hj hij hp hd h
    constructor
    · apply prioritySat_updPair h
      rintro ⟨-, -, -, -, hlt⟩
      omega
    · apply prioritySat_updPair h
      rintro ⟨-, -, -, hgt, -⟩
      omega

/-- C5 witness: with delay gap 0 the express train is forced before the
freight train, and with delay gap 45 either value can be written into
either variable of the pair. -/
theorem C5_priority_override_witness :
    assignTwo 0 1 = true
      ∧ (prioritySat [trainExpA, trainFrB45] (updPair assignNone 0 1 true) = true
          ∧ prioritySat [trainExpA, trainFrB45] (updPair assignNone 1 0 true) = true) :=
  ⟨C5_priority_override.1 [trainExpA, trainFrB] assignTwo 0 1 (by decide) (by decide)
      (by decide) (by decide) (by decide) (by decide),
    C5_priority_override.2 [trainExpA, trainFrB45] assignNone 0 1 true (by decide)
      (by decide) (by decide) (by decide) (by decide) (by decide)⟩

/-- C4 fails as stated: trainExpA and trainFrB sit on different sections,
so they do not conflict, yet every satisfying assignment of their model
sets before(0,1), because the priority constraints range over all
distinct pairs without consulting the conflict check. -/
theorem C4_counterexample :
    trainsCompeteForResource trainExpA trainFrB = false
      ∧ modelSat [trainExpA, trainFrB] assignTwo = true
      ∧ ∀ b : Nat → Nat → Bool,
          modelSat [trainExpA, trainFrB] b = true → b 0 1 = true := by
  refine ⟨by decide, by decide, ?_⟩
  intro b hm
  exact prioritySat_force (modelSat_parts hm).2.1 (by decide) (by decide)
    (by decide) (by decide) (by decide)

/-- C4 amended: for every conflicting pair exactly one of before(i,j) and
before(j,i) holds; the priority-dominance constraint is added for every
distinct ordered pair, conflicting or not, and forces before(i,j) whenever
train i has strictly higher priority and the delay gap is under 30; a
non-conflicting pair outside that priority condition is left completely
unconstrained by the model. -/
theorem C4_pair_constraints :
    (∀ (trains : List Train) (b : Nat → Nat → Bool) (i j : Nat),
        i < trains.length → j < trains.length → i ≠ j →
        trainsCompeteForResource trains[i]! trains[j]! = true →
        precedenceSat trains b = true → b i j = !(b j i))
      ∧ (∀ (trains : List Train) (b : Nat → Nat → Bool) (i j : Nat),
          i < trains.length → j < trains.length → i ≠ j →
          trains[i]!.priority > trains[j]!.priority →
          trains[j]!.delay_minutes - trains[i]!.delay_minutes < 30 →
          modelSat trains b = true → b i j = true)
      ∧ (∀ (trains : List Train) (b : Nat → Nat → Bool) (i j : Nat) (v : Bool),
          i < trains.length → j < trains.length → i ≠ j →
          trainsCompeteForResource trains[i]! trains[j]! = false →
          ¬(trains[i]!.priority > trains[j]!.priority
              ∧ trains[j]!.delay_minutes - trains[i]!.delay_minutes < 30) →
          modelSat trains b = true → modelSat trains (updPair b i j v) = true) := by
  refine ⟨?_, ?_, ?_⟩
  · intro trains b i j hi hj hij hc h
    exact precedenceSat_force h hi hj hij hc
  · intro trains b i j hi hj hij hp hd hm
    exact prioritySat_force (modelSat_parts hm).2.1 hi hj hij hp hd
  · intro trains b i j v hi hj hij hnc hnp hm
    apply modelSat_updPair hm
    · rintro ⟨-, -, -, hc⟩
      rw [hnc] at hc
      cases hc
    · rintro ⟨-, -, -, hp, hd⟩
      exact hnp ⟨hp, hd⟩

/-- C4 witness: the two same-section passenger trains are complementary
under assignTwo; the express train is forced before the freight train
with delay gap 0; and the non-conflicting express and much-delayed
freight pair tolerates writing true into before(0,1). -/
theorem C4_pair_constraints_witness :
    (assignTwo 0 1 = !(assignTwo 1 0))
      ∧ (assignTwo 0 1 = true)
      ∧ modelSat [trainExpA, trainFrB45] (updPair assignNone 0 1 true) = true :=
  ⟨C4_pair_constraints.1 [trainP5, trainP10] assignTwo 0 1 (by decide) (by decide)
      (by decide) (by decide) (by decide),
    C4_pair_constraints.2.1 [trainExpA, trainFrB] assignTwo 0 1 (by decide) (by decide)
      (by decide) (by decide) (by decide) (by decide),
    C4_pair_constraints.2.2 [trainExpA, trainFrB45] assignNone 0 1 true (by decide)
      (by decide) (by decide) (by decide) (by decide) (by decide)⟩

/-- C8 fails as stated: the cyclic assignment satisfies the model of
three equal-priority trains on one section and gives every train rank 1,
so no train of the section has rank 0; and extraction produces no
decision list at all, raising the missing-id TypeError at its first
Decision construction. -/
theorem C8_counterexample :
    modelSat [trainCyc0, trainCyc1, trainCyc2] assignCycle = true
      ∧ (∀ i < 3, ∀ j < 3, i ≠ j →
          trainsCompeteForResource [trainCyc0, trainCyc1, trainCyc2][i]!
            [trainCyc0, trainCyc1, trainCyc2][j]! = true)
      ∧ (∀ i < 3, positionOf [trainCyc0, trainCyc1, trainCyc2] assignCycle i = 1)
      ∧ extractDecisionsFromSolution [trainCyc0, trainCyc1, trainCyc2] assignCycle
        = Except.error (PyErr.typeError decisionInitMsg) :=
  ⟨by decide, by decide, by decide, rfl⟩

/-- C8 amended: a train rank is the number of other trains the assignment
orders strictly before it; among same-section trains at most one can have
rank 0 (possibly none); the generation loop evaluates proceed arguments
exactly at rank 0 and wait arguments otherwise, and then every Decision
construction raises the missing-id TypeError, so no decision list is
produced for a non-empty eligible list. -/
theorem C8_rank_decisions (trains : List Train) (b : Nat → Nat → Bool)
    (hm : modelSat trains b = true) :
    (∀ i, positionOf trains b i
        = ((List.range trains.length).filter fun j => decide (i ≠ j) && b j i).length)
      ∧ (∀ i j, i < trains.length → j < trains.length → i ≠ j →
          trainsCompeteForResource trains[i]! trains[j]! = true →
          ¬(positionOf trains b i = 0 ∧ positionOf trains b j = 0))
      ∧ (∀ i, (solvedDecisionArgs trains (positionOf trains b i, i)).action
            = if positionOf trains b i = 0 then "proceed" else "wait")
      ∧ (trains ≠ [] →
          extractDecisionsFromSolution trains b
            = Except.error (PyErr.typeError decisionInitMsg)) := by
  refine ⟨?_, ?_, ?_, ?_⟩
  · intro i
    exact List.countP_eq_length_filter _ _
  · rintro i j hi hj hij hc ⟨hpi, hpj⟩
    have hcomp := precedenceSat_force (modelSat_parts hm).1 hi hj hij hc
    cases hb : b j i with
    | true =>
      have hpos : 0 < positionOf trains b i := by
        unfold positionOf
        apply List.countP_pos_iff.mpr
        exact ⟨j, List.mem_range.mpr hj, by simp [hb, hij]⟩
      omega
    | false =>
      have hbij : b i j = true := by
        rw [hcomp, hb]
        rfl
      have hpos : 0 < positionOf trains b j := by
        unfold positionOf
        apply List.countP_pos_iff.mpr
        exact ⟨i, List.mem_range.mpr hi, by simp [hbij, Ne.symm hij]⟩
      omega
  · intro i
    by_cases hp : positionOf trains b i = 0
    · simp only [solvedDecisionArgs]
      rw [if_pos hp, if_pos hp]
    · simp only [solvedDecisionArgs]
      rw [if_neg hp, if_neg hp]
  · intro hne
    exact extract_error hne

/-- C8 witness: the two-train same-section state with the assignment
ordering the first train first. -/
theorem C8_rank_decisions_witness :
    (∀ i, positionOf [trainP5, trainP10] assignTwo i
        = ((List.range [trainP5, trainP10].length).filter
            fun j => decide (i ≠ j) && assignTwo j i).length)
      ∧ (∀ i j, i < [trainP5, trainP10].length → j < [trainP5, trainP10].length →
          i ≠ j →
          trainsCompeteForResource [trainP5, trainP10][i]! [trainP5, trainP10][j]! = true →
          ¬(positionOf [trainP5, trainP10] assignTwo i = 0
              ∧ positionOf [trainP5, trainP10] assignTwo j = 0))
      ∧ (∀ i, (solvedDecisionArgs [trainP5, trainP10]
              (positionOf [trainP5, trainP10] assignTwo i, i)).action
            = if positionOf [trainP5, trainP10] assignTwo i = 0 then "proceed"
              else "wait")
      ∧ ([trainP5, trainP10] ≠ ([] : List Train) →
          extractDecisionsFromSolution [trainP5, trainP10] assignTwo
            = Except.error (PyErr.typeError decisionInitMsg)) :=
  C8_rank_decisions [trainP5, trainP10] assignTwo (by decide)

/-- C3 fails as stated: no wait Decision is ever produced — the first
Decision construction of either path raises the missing-id TypeError —
and the evaluated heuristic arguments at rank 1 carry the reason "Lower
priority than 1 trains", not the claimed string. -/
theorem C3_counterexample :
    extractDecisionsFromSolution [trainP5, trainP10] assignTwo
        = Except.error (PyErr.typeError decisionInitMsg)
      ∧ generateHeuristicDecisions [trainP5, trainP10]
        = Except.error (PyErr.typeError decisionInitMsg)
      ∧ (heurDecisionArgs (1, trainP10)).reason = "Lower priority than 1 trains"
      ∧ ("Lower priority than 1 trains" : String)
          ≠ "Waiting for 1 higher priority trains" :=
  ⟨rfl, rfl, by decide, by decide⟩

/-- C3 amended: for an entry at rank r greater than 0, the solved path
evaluates wait arguments with reason "Waiting for r higher priority
trains", confidence 8/10 and no target section, and the heuristic path
wait arguments with reason "Lower priority than r trains", confidence
5/10 and no target section; in both paths the Decision(...) call then
raises the missing-id TypeError, so the wait Decision itself is never
produced. -/
theorem C3_wait_decision_shape :
    (∀ (trains : List Train) (pi : Nat × Nat), pi.1 ≠ 0 →
        solvedDecisionArgs trains pi
            = { train := trains[pi.2]!
                action := "wait"
                target_section := none
                reason := "Waiting for " ++ toString pi.1 ++ " higher priority trains"
                confidence := 8/10 }
          ∧ solvedDecisionFor trains pi
            = Except.error (PyErr.typeError decisionInitMsg))
      ∧ (∀ it : Nat × Train, it.1 ≠ 0 →
          heurDecisionArgs it
              = { train := it.2
                  action := "wait"
                  target_section := none
                  reason := "Lower priority than " ++ toString it.1 ++ " trains"
                  confidence := 5/10 }
            ∧ heurDecisionFor it = Except.error (PyErr.typeError decisionInitMsg)) := by
  constructor
  · intro trains pi hp
    refine ⟨?_, rfl⟩
    simp only [solvedDecisionArgs]
    rw [if_neg hp]
  · intro it hp
    refine ⟨?_, rfl⟩
    simp only [heurDecisionArgs]
    rw [if_neg hp]

/-- C3 witness: both paths at rank 1 on the two-train fixture. -/
theorem C3_wait_decision_shape_witness :
    (solvedDecisionArgs [trainP5, trainP10] (1, 1)
        = { train := [trainP5, trainP10][1]!
            action := "wait"
            target_section := none
            reason := "Waiting for " ++ toString (1 : Nat) ++ " higher priority trains"
            confidence := 8/10 }
      ∧ solvedDecisionFor [trainP5, trainP10] (1, 1)
        = Except.error (PyErr.typeError decisionInitMsg))
      ∧ (heurDecisionArgs (1, trainP10)
          = { train := trainP10
              action := "wait"
              target_section := none
              reason := "Lower priority than " ++ toString (1 : Nat) ++ " trains"
              confidence := 5/10 }
        ∧ heurDecisionFor (1, trainP10)
          = Except.error (PyErr.typeError decisionInitMsg)) :=
  ⟨C3_wait_decision_shape.1 [trainP5, trainP10] (1, 1) (by decide),
    C3_wait_decision_shape.2 (1, trainP10) (by decide)⟩

/-- C2 fails as stated: the two passenger trains share a priority and the
less delayed one is sorted first — within equal priority the delays come
out ascending, not descending, because the sort key pairs priority with
the negated delay and then reverses — and no decision at all is produced
from the order: the first Decision construction raises the missing-id
TypeError. -/
theorem C2_counterexample :
    trainP5.priority = trainP10.priority
      ∧ trainP5.delay_minutes < trainP10.delay_minutes
      ∧ heurSort [trainP5, trainP10] = [trainP5, trainP10]
      ∧ solvePrecedenceProblem SolveOutcome.failure [trainP5, trainP10]
        = Except.error (PyErr.typeError decisionInitMsg) :=
  ⟨by decide, by decide, by decide, rfl⟩

/-- C2 amended: when the solve fails the heuristic path sorts the eligible
trains by priority descending and, within equal priority, by
delay_minutes ascending (ties kept in input order by stability), and
walks that order evaluating proceed arguments for the first sorted train
and wait arguments for every later one; but each Decision(...) call omits
the required id, so for a non-empty eligible list the heuristic path
raises TypeError and produces no decision list. -/
theorem C2_heuristic_ordering (trains : List Train) :
    solvePrecedenceProblem SolveOutcome.failure trains
        = generateHeuristicDecisions trains
      ∧ (heurSort trains).Perm trains
      ∧ (heurSort trains).Pairwise (fun t u =>
          u.priority < t.priority
            ∨ (t.priority = u.priority ∧ t.delay_minutes ≤ u.delay_minutes))
      ∧ (∀ it : Nat × Train,
          (heurDecisionArgs it).action = if it.1 = 0 then "proceed" else "wait")
      ∧ ∀ (t : Train) (rest : List Train),
          generateHeuristicDecisions (t :: rest)
            = Except.error (PyErr.typeError decisionInitMsg) := by
  refine ⟨rfl, List.perm_insertionSort heurRel trains, ?_, ?_, ?_⟩
  · haveI : IsTotal Train heurRel := ⟨by
      intro a b
      unfold heurRel
      omega⟩
    haveI : IsTrans Train heurRel := ⟨by
      intro a b c hab hbc
      unfold heurRel at hab hbc ⊢
      omega⟩
    have hs := List.sorted_insertionSort heurRel trains
    unfold List.Sorted at hs
    exact List.Pairwise.imp (fun hr => hr) hs
  · intro it
    by_cases h0 : it.1 = 0
    · simp only [heurDecisionArgs]
      rw [if_pos h0, if_pos h0]
    · simp only [heurDecisionArgs]
      rw [if_neg h0, if_neg h0]
  · intro t rest
    exact heuristic_error (List.cons_ne_nil t rest)

/-- C9 fails on the code: _calculate_confidence implements exactly the
claimed score, but with eligible trains the normal path never reaches it
with a produced decision list — extraction raises the missing-id
TypeError and the except-path fallback raises the same, so optimize
throws and no confidence score is returned. -/
theorem C9_confidence_unreached :
    (∀ (d : Decision) (rest : List Decision) (s : SystemState),
        calculateConfidence (d :: rest) s
          = (((d :: rest).map Decision.confidence).sum / ((d :: rest).length : Rat))
            * min 1 ((s.trains.length : Rat) / 20))
      ∧ optimize SolveOutcome.failure 0 stateTwo
        = Except.error (PyErr.typeError decisionInitMsg) := by
  constructor
  · intro d rest s
    simp only [calculateConfidence]
    rw [if_neg (List.cons_ne_nil d rest)]
  · rfl

end TracksAI
